import Mathlib

/-!
Shallow embedding of `src/backend/routers/announcements.py`: a FastAPI router
exposing CRUD operations for time-bounded announcements stored in a MongoDB
collection, gated by a teacher-existence check against a second collection.

Documents (Python dicts / BSON documents) are modelled as ordered association
lists of string keys and BSON-like values.  The two collections are modelled
as explicit state (`DB`); each endpoint function returns its HTTP-level
result (`Except HTTPErr _`), the new state, and the trace of calls it made on
the announcements collection.  The current instant (`datetime.now()`) and the
ISO-8601 parser (`datetime.fromisoformat`) are parameters of the model.
-/

namespace Announcements

/-- Values occurring in announcement documents: BSON `null`, strings, and raw
ObjectIds (represented by their 24-character hex string). -/
inductive BVal where
  | null : BVal
  | str : String → BVal
  | oid : String → BVal
deriving DecidableEq

/-- A MongoDB document / Python dict, as an ordered association list. -/
abbrev Doc := List (String × BVal)

/-- Dict lookup `d[k]`: the value stored under the first occurrence of `k`. -/
def getKey : Doc → String → Option BVal
  | [], _ => none
  | p :: d, k => if p.1 = k then some p.2 else getKey d k

/-- Dict membership test `k in d`. -/
def hasKey (d : Doc) (k : String) : Bool :=
  (getKey d k).isSome

/-- Dict assignment `d[k] = v`: Python dicts overwrite the existing entry in
place, otherwise append the new binding at the end. -/
def setKey : Doc → String → BVal → Doc
  | [], k, v => [(k, v)]
  | p :: d, k, v => if p.1 = k then (k, v) :: d else p :: setKey d k v

/-- Dict deletion `del d[k]`. -/
def delKey : Doc → String → Doc
  | [], _ => []
  | p :: d, k => if p.1 = k then delKey d k else p :: delKey d k

/-- The list of keys of a document, in order. -/
def keysOf (d : Doc) : List String :=
  d.map (fun p => p.1)

/-- Python `str()` restricted to the values the service stores under `_id`:
`str` of an ObjectId yields its hex string. -/
def pyStr : BVal → String
  | .null => "None"
  | .str s => s
  | .oid s => s

/-- Function `serialize_announcement` of the source: when the document has an
`_id` key, bind `id` to `str(announcement["_id"])` and delete `_id`;
otherwise return the document unchanged. -/
def serialize_announcement (announcement : Doc) : Doc :=
  match getKey announcement "_id" with
  | some v => delKey (setKey announcement "id" (.str (pyStr v))) "_id"
  | none => announcement

/-- Abstract model of Python's `datetime.fromisoformat`: a partial parse into
a linearly ordered timestamp (`Int`), returning `none` where Python raises
`ValueError`.  Parsing the empty string certainly fails. -/
structure DateEnv where
  fromisoformat : String → Option Int
  empty_none : fromisoformat "" = none

/-- Python's `s.replace('Z', '+00:00')`: the pattern is a single character, so
every occurrence of `Z` is replaced independently. -/
def replaceZ (s : String) : String :=
  String.mk (s.data.flatMap (fun c => if c = 'Z' then "+00:00".data else [c]))

/-- The payload of a FastAPI `HTTPException`. -/
structure HTTPErr where
  status_code : Nat
  detail : String
deriving DecidableEq

/-- The calls an endpoint can make on `announcements_collection`. -/
inductive StoreOp where
  | find | findOne | insertOne | updateOne | deleteOne
deriving DecidableEq

/-- Which store calls mutate the collection. -/
def StoreOp.isWrite : StoreOp → Bool
  | .insertOne | .updateOne | .deleteOne => true
  | _ => false

/-- Number of mutating calls in a store trace. -/
def writeCount (t : List StoreOp) : Nat :=
  (t.filter StoreOp.isWrite).length

/-- The persistent state: the announcements collection in insertion order, the
usernames present in `teachers_collection` (its documents are keyed by the
username as `_id`), and the source of fresh ObjectIds. -/
structure DB where
  announcements : List Doc
  teachers : List String
  nextOid : Nat
deriving DecidableEq

/-- Hex digit characters, lowercase for digits ten to fifteen. -/
def hexDigitChar (n : Nat) : Char :=
  if n < 10 then Char.ofNat (48 + n) else Char.ofNat (87 + n)

/-- Fresh ObjectIds assigned by the store, as 24 lowercase hex digits. -/
def oidOfNat (n : Nat) : String :=
  String.mk (((List.range 24).reverse).map (fun i => hexDigitChar (n / 16 ^ i % 16)))

/-- Hex digit test, both cases. -/
def isHexDigitChar (c : Char) : Bool :=
  c.isDigit || ('a' ≤ c && c ≤ 'f') || ('A' ≤ c && c ≤ 'F')

/-- Constructor `ObjectId(s)` of `bson`: accepts exactly 24 hex digits and
normalizes to lowercase bytes; anything else raises, which the source catches
with a bare `except:`. -/
def objectIdOfString (s : String) : Option String :=
  if s.length = 24 && s.data.all isHexDigitChar then
    some (String.mk (s.data.map Char.toLower))
  else none

/-- Whether a document matches the Mongo query of `get_active_announcements`:
`start_date` missing or null or a string `≤ now`, and `end_date` a string
`≥ now` (Mongo order comparisons on a string bound match string values
only). -/
def matchesActive (now : String) (d : Doc) : Bool :=
  (match getKey d "start_date" with
   | none => true
   | some .null => true
   | some (.str s) => decide (s ≤ now)
   | some (.oid _) => false) &&
  (match getKey d "end_date" with
   | some (.str e) => decide (now ≤ e)
   | _ => false)

/-- Sort key for `.sort("created_at", -1)`; the service only ever stores
`created_at` as a string. -/
def createdAtOf (d : Doc) : String :=
  match getKey d "created_at" with
  | some (.str s) => s
  | _ => ""

/-- The descending comparator realised by `.sort("created_at", -1)`. -/
def createdDesc (a b : Doc) : Bool :=
  decide (createdAtOf b ≤ createdAtOf a)

/-- Endpoint `GET /announcements/active`: no authentication; `now` stands for
`datetime.now().isoformat()` at the moment of the call.  Filters with the
active-window query, sorts by `created_at` descending, serializes each hit. -/
def get_active_announcements (db : DB) (now : String) : List Doc :=
  ((db.announcements.filter (matchesActive now)).mergeSort createdDesc).map
    serialize_announcement

/-- Error raised when `teacher_username` is missing or empty. -/
def unauthErr : HTTPErr :=
  ⟨401, "Authentication required for this action"⟩

/-- Error raised when the username is not in the teacher directory. -/
def invalidCredErr : HTTPErr :=
  ⟨401, "Invalid teacher credentials"⟩

/-- Endpoint `GET /announcements`: `teacher_username` is an optional query
parameter (`none` when absent); Python's `not teacher_username` is true for
both `None` and `""`.  On success returns every announcement sorted by
`created_at` descending, serialized. -/
def get_all_announcements (db : DB) (teacher_username : Option String) :
    Except HTTPErr (List Doc) × List StoreOp :=
  match teacher_username with
  | none => (.error unauthErr, [])
  | some u =>
    if u = "" then (.error unauthErr, [])
    else if db.teachers.contains u then
      (.ok (((db.announcements.mergeSort createdDesc)).map serialize_announcement),
        [.find])
    else (.error invalidCredErr, [])

/-- The date-validation block shared verbatim by `create_announcement` and
`update_announcement`: parse `end_date` after the `Z` replacement; when
`start_date` is given and non-empty (Python truthiness of `if start_date:`),
parse it too and require `start_dt < end_dt`.  Returns the raised error, if
any: `ValueError` from either parse becomes the 400 `Invalid date format`,
while the strictness failure raises the 400 `Start date must be before end
date` HTTP error, which the `except ValueError:` clause does not catch. -/
def validateDates (env : DateEnv) (end_date : String) (start_date : Option String) :
    Option HTTPErr :=
  match env.fromisoformat (replaceZ end_date) with
  | none => some ⟨400, "Invalid date format"⟩
  | some end_dt =>
    match start_date with
    | none => none
    | some sd =>
      if sd = "" then none
      else
        match env.fromisoformat (replaceZ sd) with
        | none => some ⟨400, "Invalid date format"⟩
        | some start_dt =>
          if end_dt ≤ start_dt then
            some ⟨400, "Start date must be before end date"⟩
          else none

/-- The value stored for the optional `start_date`: Python `None` is stored as
BSON null. -/
def optVal : Option String → BVal
  | none => .null
  | some s => .str s

/-- The dict literal `announcement` built by `create_announcement`. -/
def announcement_doc (message : String) (start_date : Option String)
    (end_date : String) (created_by : String) (created_at : String) : Doc :=
  [("message", .str message),
   ("start_date", optVal start_date),
   ("end_date", .str end_date),
   ("created_by", .str created_by),
   ("created_at", .str created_at)]

/-- Endpoint `POST /announcements`.  `now` stands for
`datetime.now().isoformat()`.  pymongo's `insert_one` mutates the passed dict,
adding the assigned `_id`; the source then adds `id` bound to
`str(result.inserted_id)` and returns that dict, so the returned document
keeps the raw `_id` alongside `id`. -/
def create_announcement (env : DateEnv) (db : DB) (now : String)
    (message : String) (end_date : String) (teacher_username : String)
    (start_date : Option String) :
    Except HTTPErr Doc × DB × List StoreOp :=
  if teacher_username = "" then (.error unauthErr, db, [])
  else if db.teachers.contains teacher_username = false then
    (.error invalidCredErr, db, [])
  else
    match validateDates env end_date start_date with
    | some e => (.error e, db, [])
    | none =>
      let announcement : Doc :=
        announcement_doc message start_date end_date teacher_username now
      let inserted := announcement ++ [("_id", .oid (oidOfNat db.nextOid))]
      let db2 : DB := { db with
        announcements := db.announcements ++ [inserted],
        nextOid := db.nextOid + 1 }
      (.ok (setKey inserted "id" (.str (oidOfNat db.nextOid))), db2, [.insertOne])

/-- The document a successful create leaves in the store: the `announcement`
dict literal plus the `_id` binding pymongo appends on `insert_one`. -/
def inserted_doc (msg : String) (sd : Option String) (ed tu now o : String) :
    Doc :=
  announcement_doc msg sd ed tu now ++ [("_id", .oid o)]

/-- The store state after a successful create: the inserted document is
appended and the fresh-id source advances. -/
def created_db (db : DB) (msg : String) (sd : Option String)
    (ed tu now : String) : DB :=
  ⟨db.announcements ++ [inserted_doc msg sd ed tu now (oidOfNat db.nextOid)],
    db.teachers, db.nextOid + 1⟩

/-- Whether a stored document's `_id` is the given ObjectId. -/
def idEq (d : Doc) (o : String) : Bool :=
  getKey d "_id" == some (.oid o)

/-- Mongo `find_one` with an `_id` bound on the announcements collection. -/
def findOneById (anns : List Doc) (o : String) : Option Doc :=
  anns.find? (fun d => idEq d o)

/-- Mongo `$set` with the given update document: each binding overwrites or
adds the corresponding field. -/
def applySet (d : Doc) (upd : Doc) : Doc :=
  upd.foldl (fun acc kv => setKey acc kv.1 kv.2) d

/-- Mongo `update_one` with a `$set` document: applies `$set` to the first
document matching the `_id` bound only. -/
def updateFirst (o : String) (upd : Doc) : List Doc → List Doc
  | [] => []
  | d :: rest =>
    if idEq d o then applySet d upd :: rest else d :: updateFirst o upd rest

/-- Mongo `delete_one` with an `_id` bound: removes the first matching document and reports
the deleted count (0 or 1). -/
def deleteFirst (o : String) : List Doc → List Doc × Nat
  | [] => ([], 0)
  | d :: rest =>
    if idEq d o then (rest, 1)
    else
      let r := deleteFirst o rest
      (d :: r.1, r.2)

/-- The dict literal `update_data` built by `update_announcement`. -/
def update_data (message : String) (start_date : Option String)
    (end_date : String) (updated_by : String) (updated_at : String) : Doc :=
  [("message", .str message),
   ("start_date", optVal start_date),
   ("end_date", .str end_date),
   ("updated_by", .str updated_by),
   ("updated_at", .str updated_at)]

/-- Endpoint `PUT /announcements/{announcement_id}`.  The final branch models
`serialize_announcement(None)` (a `TypeError` surfaced by FastAPI as a 500);
it is unreachable because the updated document still exists after
`update_one`. -/
def update_announcement (env : DateEnv) (db : DB) (now : String)
    (announcement_id : String) (message : String) (end_date : String)
    (teacher_username : String) (start_date : Option String) :
    Except HTTPErr Doc × DB × List StoreOp :=
  if teacher_username = "" then (.error unauthErr, db, [])
  else if db.teachers.contains teacher_username = false then
    (.error invalidCredErr, db, [])
  else
    match objectIdOfString announcement_id with
    | none => (.error ⟨400, "Invalid announcement ID"⟩, db, [])
    | some obj_id =>
      match findOneById db.announcements obj_id with
      | none => (.error ⟨404, "Announcement not found"⟩, db, [.findOne])
      | some _ =>
        match validateDates env end_date start_date with
        | some e => (.error e, db, [.findOne])
        | none =>
          let upd : Doc := update_data message start_date end_date teacher_username now
          let db2 : DB := { db with
            announcements := updateFirst obj_id upd db.announcements }
          match findOneById db2.announcements obj_id with
          | some updated =>
            (.ok (serialize_announcement updated), db2,
              [.findOne, .updateOne, .findOne])
          | none =>
            (.error ⟨500, "Internal Server Error"⟩, db2,
              [.findOne, .updateOne, .findOne])

/-- Endpoint `DELETE /announcements/{announcement_id}`: after authentication
and id validation, `delete_one` runs unconditionally and the 404 is decided by
its deleted count. -/
def delete_announcement (db : DB) (announcement_id : String)
    (teacher_username : String) :
    Except HTTPErr Doc × DB × List StoreOp :=
  if teacher_username = "" then (.error unauthErr, db, [])
  else if db.teachers.contains teacher_username = false then
    (.error invalidCredErr, db, [])
  else
    match objectIdOfString announcement_id with
    | none => (.error ⟨400, "Invalid announcement ID"⟩, db, [])
    | some obj_id =>
      let r := deleteFirst obj_id db.announcements
      let db2 : DB := { db with announcements := r.1 }
      if r.2 = 0 then (.error ⟨404, "Announcement not found"⟩, db2, [.deleteOne])
      else
        (.ok [("message", .str "Announcement deleted successfully")], db2,
          [.deleteOne])

/-- Tests whether an optional value is an ObjectId. -/
def isOidVal : Option BVal → Bool
  | some (.oid _) => true
  | _ => false

/-- Tests whether an optional value is a string. -/
def isStrVal : Option BVal → Bool
  | some (.str _) => true
  | _ => false

/-- Tests whether an optional value is null or a string. -/
def isNullOrStrVal : Option BVal → Bool
  | some .null => true
  | some (.str _) => true
  | _ => false

/-- Documents as this service stores them: `_id` an ObjectId, `created_at` a
string, no `id` field, `start_date` null or a string, `end_date` a string. -/
def docWf (d : Doc) : Bool :=
  isOidVal (getKey d "_id") && isStrVal (getKey d "created_at")
    && (getKey d "id").isNone && isNullOrStrVal (getKey d "start_date")
    && isStrVal (getKey d "end_date")

/-- Store invariant: every document well-formed and `_id`s pairwise
distinct (MongoDB enforces `_id` uniqueness). -/
def DB.wf (db : DB) : Prop :=
  (∀ d ∈ db.announcements, docWf d = true) ∧
    (db.announcements.map (fun d => getKey d "_id")).Nodup

instance (db : DB) : Decidable (DB.wf db) := by
  unfold DB.wf
  exact inferInstance

/-! ### Dictionary lemmas -/

theorem getKey_setKey_self (d : Doc) (k : String) (v : BVal) :
    getKey (setKey d k v) k = some v := by
  induction d with
  | nil => simp [setKey, getKey]
  | cons p d ih =>
    by_cases h : p.1 = k
    · simp [setKey, h, getKey]
    · simp [setKey, h, getKey, ih]

theorem getKey_setKey_ne (d : Doc) {k k' : String} (v : BVal) (h : k' ≠ k) :
    getKey (setKey d k v) k' = getKey d k' := by
  induction d with
  | nil => simp [setKey, getKey, Ne.symm h]
  | cons p d ih =>
    by_cases hp : p.1 = k
    · subst hp
      simp [setKey, getKey, Ne.symm h]
    · simp only [setKey, hp, if_false, getKey]
      rw [ih]

theorem getKey_delKey_self (d : Doc) (k : String) :
    getKey (delKey d k) k = none := by
  induction d with
  | nil => simp [delKey, getKey]
  | cons p d ih =>
    by_cases h : p.1 = k
    · simp [delKey, h, ih]
    · simp [delKey, h, getKey, ih]

theorem getKey_delKey_ne (d : Doc) {k k' : String} (h : k' ≠ k) :
    getKey (delKey d k) k' = getKey d k' := by
  induction d with
  | nil => simp [delKey]
  | cons p d ih =>
    by_cases hp : p.1 = k
    · subst hp
      simp [delKey, getKey, Ne.symm h, ih]
    · simp only [delKey, hp, if_false, getKey]
      rw [ih]

/-! ### Serialization lemmas -/

theorem getKey_serialize_of_ne (d : Doc) {k : String}
    (h1 : k ≠ "_id") (h2 : k ≠ "id") :
    getKey (serialize_announcement d) k = getKey d k := by
  unfold serialize_announcement
  cases hid : getKey d "_id" with
  | none => rfl
  | some v => rw [getKey_delKey_ne _ h1, getKey_setKey_ne _ _ h2]

theorem getKey_serialize_id {d : Doc} {v : BVal}
    (h : getKey d "_id" = some v) :
    getKey (serialize_announcement d) "id" = some (.str (pyStr v)) := by
  unfold serialize_announcement
  rw [h, getKey_delKey_ne _ (by decide), getKey_setKey_self]

theorem getKey_serialize_raw {d : Doc} {v : BVal}
    (h : getKey d "_id" = some v) :
    getKey (serialize_announcement d) "_id" = none := by
  unfold serialize_announcement
  rw [h, getKey_delKey_self]

theorem createdAtOf_serialize (d : Doc) :
    createdAtOf (serialize_announcement d) = createdAtOf d := by
  unfold createdAtOf
  rw [getKey_serialize_of_ne d (by decide) (by decide)]

/-! ### Update and delete store lemmas -/

theorem getKey_applySet_not_mem (upd : Doc) (d : Doc) {k : String}
    (h : k ∉ keysOf upd) :
    getKey (applySet d upd) k = getKey d k := by
  induction upd generalizing d with
  | nil => rfl
  | cons p upd ih =>
    have h1 : k ≠ p.1 := by
      intro hk
      exact h (by simp [keysOf, hk])
    have h2 : k ∉ keysOf upd := by
      intro hk
      exact h (by simp [keysOf] at hk ⊢; exact .inr hk)
    calc getKey (applySet d (p :: upd)) k
        = getKey (applySet (setKey d p.1 p.2) upd) k := rfl
      _ = getKey (setKey d p.1 p.2) k := ih _ h2
      _ = getKey d k := getKey_setKey_ne _ _ h1

theorem idEq_applySet (d upd : Doc) (o : String) (h : "_id" ∉ keysOf upd) :
    idEq (applySet d upd) o = idEq d o := by
  unfold idEq
  rw [getKey_applySet_not_mem _ _ h]

theorem idEq_iff {d : Doc} {o : String} :
    idEq d o = true ↔ getKey d "_id" = some (.oid o) := by
  simp [idEq]

theorem findOneById_cons (d : Doc) (l : List Doc) (o : String) :
    findOneById (d :: l) o = if idEq d o then some d else findOneById l o := by
  unfold findOneById
  rw [List.find?_cons]
  cases hd : idEq d o <;> simp [hd]

theorem findOneById_updateFirst (l : List Doc) (o : String) (upd : Doc)
    (h : "_id" ∉ keysOf upd) :
    findOneById (updateFirst o upd l) o =
      (findOneById l o).map (fun d => applySet d upd) := by
  induction l with
  | nil => rfl
  | cons d l ih =>
    by_cases hd : idEq d o
    · rw [show updateFirst o upd (d :: l) = applySet d upd :: l from by
        simp [updateFirst, hd]]
      rw [findOneById_cons, findOneById_cons, if_pos hd,
        if_pos (by rw [idEq_applySet _ _ _ h]; exact hd)]
      rfl
    · rw [show updateFirst o upd (d :: l) = d :: updateFirst o upd l from by
        simp [updateFirst, hd]]
      rw [findOneById_cons, findOneById_cons, if_neg hd, if_neg hd]
      exact ih

theorem deleteFirst_count_zero {o : String} {l : List Doc}
    (h : (deleteFirst o l).2 = 0) : (deleteFirst o l).1 = l := by
  induction l with
  | nil => rfl
  | cons d l ih =>
    by_cases hd : idEq d o
    · simp [deleteFirst, hd] at h
    · simp only [deleteFirst, hd, if_neg, Bool.false_eq_true, if_false] at h ⊢
      rw [ih h]

theorem deleteFirst_of_no_match {o : String} {l : List Doc}
    (h : ∀ d ∈ l, idEq d o = false) : deleteFirst o l = (l, 0) := by
  induction l with
  | nil => rfl
  | cons d l ih =>
    have hd : idEq d o = false := h d (by simp)
    simp only [deleteFirst, hd, Bool.false_eq_true, if_false]
    rw [ih (fun e he => h e (by simp [he]))]

theorem deleteFirst_no_match (o : String) (l : List Doc)
    (hnd : (l.map (fun d => getKey d "_id")).Nodup) :
    ∀ d ∈ (deleteFirst o l).1, idEq d o = false := by
  induction l with
  | nil => simp [deleteFirst]
  | cons d l ih =>
    rw [List.map_cons, List.nodup_cons] at hnd
    obtain ⟨hhead, htail⟩ := hnd
    by_cases hd : idEq d o
    · simp only [deleteFirst, hd, if_pos]
      intro e he
      by_contra hcon
      have he' : getKey e "_id" = some (.oid o) :=
        idEq_iff.1 (by revert hcon; cases idEq e o <;> simp)
      have hd' : getKey d "_id" = some (.oid o) := idEq_iff.1 hd
      exact hhead (by rw [hd', ← he']; exact List.mem_map_of_mem _ he)
    · simp only [deleteFirst, hd, Bool.false_eq_true, if_false]
      intro e he
      rcases List.mem_cons.1 he with rfl | he'
      · simpa using hd
      · exact ih htail e he'

/-! ### Active-listing lemmas -/

theorem isOidVal_iff {x : Option BVal} :
    isOidVal x = true ↔ ∃ s, x = some (.oid s) := by
  cases x with
  | none => simp [isOidVal]
  | some v => cases v <;> simp [isOidVal]

theorem isStrVal_iff {x : Option BVal} :
    isStrVal x = true ↔ ∃ s, x = some (.str s) := by
  cases x with
  | none => simp [isStrVal]
  | some v => cases v <;> simp [isStrVal]

theorem isNullOrStrVal_iff {x : Option BVal} :
    isNullOrStrVal x = true ↔ x = some .null ∨ ∃ s, x = some (.str s) := by
  cases x with
  | none => simp [isNullOrStrVal]
  | some v => cases v <;> simp [isNullOrStrVal]

theorem docWf_parts {d : Doc} (h : docWf d = true) :
    isOidVal (getKey d "_id") = true ∧ isStrVal (getKey d "created_at") = true ∧
      (getKey d "id").isNone = true ∧ isNullOrStrVal (getKey d "start_date") = true ∧
      isStrVal (getKey d "end_date") = true := by
  simpa [docWf, Bool.and_eq_true, and_assoc] using h

/-- Under the stored-document shape, the Mongo active query is exactly the
activity-window condition on the string representations. -/
theorem matchesActive_iff {A : Doc} {now : String}
    (hs : isNullOrStrVal (getKey A "start_date") = true)
    (he : isStrVal (getKey A "end_date") = true) :
    matchesActive now A = true ↔
      ((getKey A "start_date" = some .null ∨
          ∃ s, getKey A "start_date" = some (.str s) ∧ s ≤ now) ∧
        ∃ e, getKey A "end_date" = some (.str e) ∧ now ≤ e) := by
  obtain ⟨e, hee⟩ := isStrVal_iff.1 he
  rcases isNullOrStrVal_iff.1 hs with hnull | ⟨s, hss⟩
  · unfold matchesActive
    rw [hee, hnull]
    simp
  · unfold matchesActive
    rw [hee, hss]
    simp

theorem serialize_eq_of_wf {A B : Doc} {sa sb : String}
    (hva : getKey A "_id" = some (.oid sa)) (hvb : getKey B "_id" = some (.oid sb))
    (hEq : serialize_announcement A = serialize_announcement B) :
    getKey A "_id" = getKey B "_id" := by
  have hida := getKey_serialize_id hva
  have hidb := getKey_serialize_id hvb
  rw [hEq, hidb] at hida
  rw [hva, hvb]
  simpa [pyStr] using hida.symm

theorem createdDesc_trans (a b c : Doc) :
    createdDesc a b → createdDesc b c → createdDesc a c := by
  simp only [createdDesc, decide_eq_true_eq]
  exact fun hab hbc => le_trans hbc hab

theorem createdDesc_total (a b : Doc) : createdDesc a b || createdDesc b a := by
  simp only [createdDesc, Bool.or_eq_true, decide_eq_true_eq]
  exact le_total _ _

/-- The active listing is sorted by `created_at` descending. -/
theorem get_active_sorted (db : DB) (now : String) :
    (get_active_announcements db now).Pairwise
      (fun a b => createdAtOf b ≤ createdAtOf a) := by
  unfold get_active_announcements
  rw [List.pairwise_map]
  have h := List.sorted_mergeSort createdDesc_trans createdDesc_total
    (db.announcements.filter (matchesActive now))
  exact h.imp (fun hab => by
    simpa [createdDesc, createdAtOf_serialize] using hab)

/-- Membership in the active listing, for a stored announcement of a
well-formed store: exactly the documents matching the active query appear
(after serialization). -/
theorem mem_get_active_iff {db : DB} {A : Doc} {now : String}
    (hwf : db.wf) (hA : A ∈ db.announcements) :
    serialize_announcement A ∈ get_active_announcements db now ↔
      matchesActive now A = true := by
  unfold get_active_announcements
  rw [List.mem_map]
  constructor
  · rintro ⟨B, hB, hEq⟩
    rw [List.mem_mergeSort, List.mem_filter] at hB
    obtain ⟨hBdb, hBm⟩ := hB
    obtain ⟨ha, hnd⟩ := hwf
    obtain ⟨sa, hva⟩ := isOidVal_iff.1 (docWf_parts (ha A hA)).1
    obtain ⟨sb, hvb⟩ := isOidVal_iff.1 (docWf_parts (ha B hBdb)).1
    have hid : getKey B "_id" = getKey A "_id" :=
      serialize_eq_of_wf hvb hva hEq
    have hBA : B = A := List.inj_on_of_nodup_map hnd hBdb hA hid
    rw [← hBA]
    exact hBm
  · intro hm
    exact ⟨A, by rw [List.mem_mergeSort]; exact List.mem_filter.2 ⟨hA, hm⟩, rfl⟩

/-! ### Concrete instances used by witnesses and counterexamples -/

/-- A concrete parse table standing in for `datetime.fromisoformat` on the
canonical strings the witnesses use. -/
def demoParse : String → Option Int := fun s =>
  if s = "2025-01-10T00:00:00" then some 10
  else if s = "2025-01-11T00:00:00" then some 11
  else if s = "2025-01-12T00:00:00" then some 12
  else if s = "2025-01-09T00:00:00+00:00" then some 9
  else none

/-- The concrete date environment of the witnesses. -/
def demoEnv : DateEnv := ⟨demoParse, rfl⟩

/-- An empty store whose teacher directory knows `t1`. -/
def dbW0 : DB := ⟨[], ["t1"], 0⟩

/-- A stored announcement with a null `start_date`, active until Jan 10. -/
def dW1 : Doc :=
  [("message", .str "Exam tomorrow"), ("start_date", .null),
   ("end_date", .str "2025-01-10T00:00:00"), ("created_by", .str "t1"),
   ("created_at", .str "2025-01-01T00:00:00"), ("_id", .oid (oidOfNat 0))]

/-- A stored announcement whose window starts only on Jan 11. -/
def dW2 : Doc :=
  [("message", .str "Later"), ("start_date", .str "2025-01-11T00:00:00"),
   ("end_date", .str "2025-01-12T00:00:00"), ("created_by", .str "t1"),
   ("created_at", .str "2025-01-02T00:00:00"), ("_id", .oid (oidOfNat 1))]

/-- A two-announcement store with teacher `t1`. -/
def dbW1 : DB := ⟨[dW1, dW2], ["t1"], 2⟩

/-! ### The claims -/

/-- C1: for every stored announcement `A` of a well-formed store and every
current instant `now`, the `list_active` result contains `A` (serialized)
exactly when (`start_date` is absent/null or `start_date ≤ now`) and
`end_date ≥ now`, comparing the ISO-8601 string representations, and the
returned sequence is ordered by `created_at` descending. -/
theorem C1_list_active_spec (db : DB) (now : String) (A : Doc)
    (hwf : db.wf) (hA : A ∈ db.announcements) :
    (serialize_announcement A ∈ get_active_announcements db now ↔
      ((getKey A "start_date" = some .null ∨
          ∃ s, getKey A "start_date" = some (.str s) ∧ s ≤ now) ∧
        ∃ e, getKey A "end_date" = some (.str e) ∧ now ≤ e)) ∧
    (get_active_announcements db now).Pairwise
      (fun a b => createdAtOf b ≤ createdAtOf a) := by
  have parts := docWf_parts (hwf.1 A hA)
  exact ⟨(mem_get_active_iff hwf hA).trans
      (matchesActive_iff parts.2.2.2.1 parts.2.2.2.2),
    get_active_sorted db now⟩

/-- Witness for C1 at a concrete two-element store and instant. -/
theorem C1_list_active_spec_witness :
    DB.wf dbW1 ∧ dW1 ∈ dbW1.announcements ∧
    ((serialize_announcement dW1 ∈
        get_active_announcements dbW1 "2025-01-05T00:00:00" ↔
      ((getKey dW1 "start_date" = some .null ∨
          ∃ s, getKey dW1 "start_date" = some (.str s) ∧
            s ≤ "2025-01-05T00:00:00") ∧
        ∃ e, getKey dW1 "end_date" = some (.str e) ∧
          "2025-01-05T00:00:00" ≤ e)) ∧
     (get_active_announcements dbW1 "2025-01-05T00:00:00").Pairwise
       (fun a b => createdAtOf b ≤ createdAtOf a)) :=
  ⟨by decide, by decide,
    C1_list_active_spec dbW1 "2025-01-05T00:00:00" dW1 (by decide) (by decide)⟩

/-- C2: the claim that every announcement response presents the identifier
only as the plain string `id` and never exposes the raw `_id` fails on
`create_announcement`: pymongo's `insert_one` adds the assigned ObjectId to
the dict in place, and the source returns that dict without running
`serialize_announcement`, so the create response still carries the store's
native identifier under `_id`.  This theorem evaluates create at a concrete
failing input. -/
theorem C2_create_exposes_raw_objectid :
    (create_announcement demoEnv dbW0 "2025-01-01T00:00:00" "Exam tomorrow"
        "2025-01-10T00:00:00" "t1" none).1 =
      .ok (setKey (inserted_doc "Exam tomorrow" none "2025-01-10T00:00:00"
        "t1" "2025-01-01T00:00:00" (oidOfNat 0)) "id" (.str (oidOfNat 0))) ∧
    getKey (setKey (inserted_doc "Exam tomorrow" none "2025-01-10T00:00:00"
        "t1" "2025-01-01T00:00:00" (oidOfNat 0)) "id" (.str (oidOfNat 0)))
      "_id" = some (.oid (oidOfNat 0)) ∧
    getKey (setKey (inserted_doc "Exam tomorrow" none "2025-01-10T00:00:00"
        "t1" "2025-01-01T00:00:00" (oidOfNat 0)) "id" (.str (oidOfNat 0)))
      "id" = some (.str (oidOfNat 0)) :=
  ⟨rfl, rfl, rfl⟩

/-! ### Write-discipline lemmas -/

theorem create_write_discipline (env : DateEnv) (db : DB) (now msg ed tu : String)
    (sd : Option String) :
    ((create_announcement env db now msg ed tu sd).1.isOk = true →
        writeCount (create_announcement env db now msg ed tu sd).2.2 = 1) ∧
    ((create_announcement env db now msg ed tu sd).1.isOk = false →
        writeCount (create_announcement env db now msg ed tu sd).2.2 = 0 ∧
        (create_announcement env db now msg ed tu sd).2.1 = db) := by
  by_cases h1 : tu = ""
  · simp [create_announcement, h1, writeCount, Except.isOk, Except.toBool]
  by_cases h2 : tu ∈ db.teachers
  case neg =>
    simp [create_announcement, h1, h2, writeCount, Except.isOk, Except.toBool]
  cases h3 : validateDates env ed sd with
  | some e =>
    simp [create_announcement, h1, h2, h3, writeCount, Except.isOk,
      Except.toBool]
  | none =>
    simp [create_announcement, h1, h2, h3, writeCount, StoreOp.isWrite,
      Except.isOk, Except.toBool]

theorem update_write_discipline (env : DateEnv) (db : DB)
    (now aid msg ed tu : String) (sd : Option String) :
    ((update_announcement env db now aid msg ed tu sd).1.isOk = true →
        writeCount (update_announcement env db now aid msg ed tu sd).2.2 = 1) ∧
    ((update_announcement env db now aid msg ed tu sd).1.isOk = false →
        writeCount (update_announcement env db now aid msg ed tu sd).2.2 = 0 ∧
        (update_announcement env db now aid msg ed tu sd).2.1 = db) := by
  by_cases h1 : tu = ""
  · simp [update_announcement, h1, writeCount, Except.isOk, Except.toBool]
  by_cases h2 : tu ∈ db.teachers
  case neg =>
    simp [update_announcement, h1, h2, writeCount, Except.isOk, Except.toBool]
  cases h3 : objectIdOfString aid with
  | none =>
    simp [update_announcement, h1, h2, h3, writeCount, Except.isOk,
      Except.toBool]
  | some obj =>
    cases h4 : findOneById db.announcements obj with
    | none =>
      simp [update_announcement, h1, h2, h3, h4, writeCount, StoreOp.isWrite,
        Except.isOk, Except.toBool]
    | some ex =>
      cases h5 : validateDates env ed sd with
      | some e =>
        simp [update_announcement, h1, h2, h3, h4, h5, writeCount,
          StoreOp.isWrite, Except.isOk, Except.toBool]
      | none =>
        have h6 : findOneById
            (updateFirst obj (update_data msg sd ed tu now) db.announcements)
            obj = some (applySet ex (update_data msg sd ed tu now)) := by
          rw [findOneById_updateFirst _ _ _
            (by simp [update_data, keysOf, optVal])]
          rw [h4]
          rfl
        simp only [update_data] at h6
        simp [update_announcement, h1, h2, h3, h4, h5, h6, update_data,
          writeCount, StoreOp.isWrite, Except.isOk, Except.toBool]

theorem delete_write_discipline (db : DB) (aid tu : String) :
    ((delete_announcement db aid tu).1.isOk = true →
        writeCount (delete_announcement db aid tu).2.2 = 1) ∧
    ((delete_announcement db aid tu).1.isOk = false →
        writeCount (delete_announcement db aid tu).2.2 ≤ 1 ∧
        (delete_announcement db aid tu).2.1 = db) := by
  by_cases h1 : tu = ""
  · simp [delete_announcement, h1, writeCount, Except.isOk, Except.toBool]
  by_cases h2 : tu ∈ db.teachers
  case neg =>
    simp [delete_announcement, h1, h2, writeCount, Except.isOk, Except.toBool]
  cases h3 : objectIdOfString aid with
  | none =>
    simp [delete_announcement, h1, h2, h3, writeCount, Except.isOk,
      Except.toBool]
  | some obj =>
    by_cases h4 : (deleteFirst obj db.announcements).2 = 0
    · have h5 := deleteFirst_count_zero h4
      simp [delete_announcement, h1, h2, h3, h4, h5, writeCount,
        StoreOp.isWrite, Except.isOk, Except.toBool]
    · simp [delete_announcement, h1, h2, h3, h4, writeCount,
        StoreOp.isWrite, Except.isOk, Except.toBool]

/-- C3 as stated is false at this input: an authorized delete of a well-formed
but absent id fails with 404, yet one mutating store call (`delete_one`) was
attempted before the failure was decided. -/
theorem C3_counterexample :
    delete_announcement ⟨[], ["t1"], 0⟩ (oidOfNat 7) "t1" =
      (.error ⟨404, "Announcement not found"⟩, ⟨[], ["t1"], 0⟩, [.deleteOne]) ∧
    writeCount [.deleteOne] = 1 :=
  ⟨rfl, rfl⟩

/-- C3 (amended): every create or update either fully succeeds with exactly
one mutating store call or fails with no mutating call and the store
unchanged; every delete either succeeds with exactly one mutating call or
fails with the store unchanged, though its NotFound failure is decided from
the outcome of the one attempted delete call (at most one mutating call).
Date-validation failures therefore always precede any write. -/
theorem C3_no_partial_writes (env : DateEnv) (db : DB)
    (now msg ed tu aid : String) (sd : Option String) :
    (((create_announcement env db now msg ed tu sd).1.isOk = true →
        writeCount (create_announcement env db now msg ed tu sd).2.2 = 1) ∧
     ((create_announcement env db now msg ed tu sd).1.isOk = false →
        writeCount (create_announcement env db now msg ed tu sd).2.2 = 0 ∧
        (create_announcement env db now msg ed tu sd).2.1 = db)) ∧
    (((update_announcement env db now aid msg ed tu sd).1.isOk = true →
        writeCount (update_announcement env db now aid msg ed tu sd).2.2 = 1) ∧
     ((update_announcement env db now aid msg ed tu sd).1.isOk = false →
        writeCount (update_announcement env db now aid msg ed tu sd).2.2 = 0 ∧
        (update_announcement env db now aid msg ed tu sd).2.1 = db)) ∧
    (((delete_announcement db aid tu).1.isOk = true →
        writeCount (delete_announcement db aid tu).2.2 = 1) ∧
     ((delete_announcement db aid tu).1.isOk = false →
        writeCount (delete_announcement db aid tu).2.2 ≤ 1 ∧
        (delete_announcement db aid tu).2.1 = db)) :=
  ⟨create_write_discipline env db now msg ed tu sd,
   update_write_discipline env db now aid msg ed tu sd,
   delete_write_discipline db aid tu⟩

/-- Witness for C3 (amended) at concrete inputs. -/
theorem C3_no_partial_writes_witness :
    (((create_announcement demoEnv dbW1 "2025-01-03T00:00:00" "m"
          "2025-01-10T00:00:00" "t1" none).1.isOk = true →
        writeCount (create_announcement demoEnv dbW1 "2025-01-03T00:00:00" "m"
          "2025-01-10T00:00:00" "t1" none).2.2 = 1) ∧
     ((create_announcement demoEnv dbW1 "2025-01-03T00:00:00" "m"
          "2025-01-10T00:00:00" "t1" none).1.isOk = false →
        writeCount (create_announcement demoEnv dbW1 "2025-01-03T00:00:00" "m"
          "2025-01-10T00:00:00" "t1" none).2.2 = 0 ∧
        (create_announcement demoEnv dbW1 "2025-01-03T00:00:00" "m"
          "2025-01-10T00:00:00" "t1" none).2.1 = dbW1)) ∧
    (((update_announcement demoEnv dbW1 "2025-01-03T00:00:00" (oidOfNat 0) "m"
          "2025-01-10T00:00:00" "t1" none).1.isOk = true →
        writeCount (update_announcement demoEnv dbW1 "2025-01-03T00:00:00"
          (oidOfNat 0) "m" "2025-01-10T00:00:00" "t1" none).2.2 = 1) ∧
     ((update_announcement demoEnv dbW1 "2025-01-03T00:00:00" (oidOfNat 0) "m"
          "2025-01-10T00:00:00" "t1" none).1.isOk = false →
        writeCount (update_announcement demoEnv dbW1 "2025-01-03T00:00:00"
          (oidOfNat 0) "m" "2025-01-10T00:00:00" "t1" none).2.2 = 0 ∧
        (update_announcement demoEnv dbW1 "2025-01-03T00:00:00" (oidOfNat 0)
          "m" "2025-01-10T00:00:00" "t1" none).2.1 = dbW1)) ∧
    (((delete_announcement dbW1 (oidOfNat 0) "t1").1.isOk = true →
        writeCount (delete_announcement dbW1 (oidOfNat 0) "t1").2.2 = 1) ∧
     ((delete_announcement dbW1 (oidOfNat 0) "t1").1.isOk = false →
        writeCount (delete_announcement dbW1 (oidOfNat 0) "t1").2.2 ≤ 1 ∧
        (delete_announcement dbW1 (oidOfNat 0) "t1").2.1 = dbW1)) :=
  C3_no_partial_writes demoEnv dbW1 "2025-01-03T00:00:00" "m"
    "2025-01-10T00:00:00" "t1" (oidOfNat 0) none

/-- C4: every list_all / create / update / delete call with an absent or empty
`teacher_username` fails with the 401 `Authentication required` error, and
with a non-empty username unknown to the teacher directory fails with the 401
`Invalid teacher credentials` error; in both cases the trace of
announcement-store calls is empty, so the failure precedes any store
interaction. -/
theorem C4_auth_gate (env : DateEnv) (db : DB) (now msg ed aid : String)
    (sd : Option String) (tu : String) :
    (get_all_announcements db none =
        (.error ⟨401, "Authentication required for this action"⟩, []) ∧
     get_all_announcements db (some "") =
        (.error ⟨401, "Authentication required for this action"⟩, []) ∧
     create_announcement env db now msg ed "" sd =
        (.error ⟨401, "Authentication required for this action"⟩, db, []) ∧
     update_announcement env db now aid msg ed "" sd =
        (.error ⟨401, "Authentication required for this action"⟩, db, []) ∧
     delete_announcement db aid "" =
        (.error ⟨401, "Authentication required for this action"⟩, db, [])) ∧
    (tu ≠ "" → tu ∉ db.teachers →
      get_all_announcements db (some tu) =
        (.error ⟨401, "Invalid teacher credentials"⟩, []) ∧
      create_announcement env db now msg ed tu sd =
        (.error ⟨401, "Invalid teacher credentials"⟩, db, []) ∧
      update_announcement env db now aid msg ed tu sd =
        (.error ⟨401, "Invalid teacher credentials"⟩, db, []) ∧
      delete_announcement db aid tu =
        (.error ⟨401, "Invalid teacher credentials"⟩, db, [])) := by
  constructor
  · exact ⟨rfl, rfl, rfl, rfl, rfl⟩
  · intro h1 h2
    refine ⟨?_, ?_, ?_, ?_⟩
    · simp [get_all_announcements, h1, h2, invalidCredErr]
    · simp [create_announcement, h1, h2, invalidCredErr]
    · simp [update_announcement, h1, h2, invalidCredErr]
    · simp [delete_announcement, h1, h2, invalidCredErr]

/-- Witness for C4 at a concrete store and the unknown username `tx`. -/
theorem C4_auth_gate_witness :
    ("tx" ≠ "" ∧ "tx" ∉ dbW1.teachers) ∧
    (get_all_announcements dbW1 none =
        (.error ⟨401, "Authentication required for this action"⟩, []) ∧
     get_all_announcements dbW1 (some "") =
        (.error ⟨401, "Authentication required for this action"⟩, []) ∧
     create_announcement demoEnv dbW1 "2025-01-03T00:00:00" "m"
        "2025-01-10T00:00:00" "" none =
        (.error ⟨401, "Authentication required for this action"⟩, dbW1, []) ∧
     update_announcement demoEnv dbW1 "2025-01-03T00:00:00" (oidOfNat 0) "m"
        "2025-01-10T00:00:00" "" none =
        (.error ⟨401, "Authentication required for this action"⟩, dbW1, []) ∧
     delete_announcement dbW1 (oidOfNat 0) "" =
        (.error ⟨401, "Authentication required for this action"⟩, dbW1, [])) ∧
    (get_all_announcements dbW1 (some "tx") =
        (.error ⟨401, "Invalid teacher credentials"⟩, []) ∧
     create_announcement demoEnv dbW1 "2025-01-03T00:00:00" "m"
        "2025-01-10T00:00:00" "tx" none =
        (.error ⟨401, "Invalid teacher credentials"⟩, dbW1, []) ∧
     update_announcement demoEnv dbW1 "2025-01-03T00:00:00" (oidOfNat 0) "m"
        "2025-01-10T00:00:00" "tx" none =
        (.error ⟨401, "Invalid teacher credentials"⟩, dbW1, []) ∧
     delete_announcement dbW1 (oidOfNat 0) "tx" =
        (.error ⟨401, "Invalid teacher credentials"⟩, dbW1, [])) :=
  ⟨⟨by decide, by decide⟩,
    (C4_auth_gate demoEnv dbW1 "2025-01-03T00:00:00" "m" "2025-01-10T00:00:00"
      (oidOfNat 0) none "tx").1,
    (C4_auth_gate demoEnv dbW1 "2025-01-03T00:00:00" "m" "2025-01-10T00:00:00"
      (oidOfNat 0) none "tx").2 (by decide) (by decide)⟩

/-- C5: an authorized create whose two dates both parse and whose parsed
start is not strictly before the parsed end (including equality) fails with
the 400 `Start date must be before end date` error and performs no store
interaction (empty trace, store unchanged). -/
theorem C5_create_start_not_before_end (env : DateEnv) (db : DB)
    (now msg tu ed sd : String) (e s : Int)
    (htu : tu ≠ "") (hteach : tu ∈ db.teachers)
    (hed : env.fromisoformat (replaceZ ed) = some e)
    (hsd : env.fromisoformat (replaceZ sd) = some s)
    (hge : e ≤ s) :
    create_announcement env db now msg ed tu (some sd) =
      (.error ⟨400, "Start date must be before end date"⟩, db, []) := by
  have hsd0 : sd ≠ "" := by
    intro h
    rw [h, show replaceZ "" = "" from rfl, env.empty_none] at hsd
    cases hsd
  have hval : validateDates env ed (some sd) =
      some ⟨400, "Start date must be before end date"⟩ := by
    unfold validateDates
    rw [hed]
    simp [hsd0, hsd, hge]
  simp [create_announcement, htu, hteach, hval]

/-- Witness for C5: start Jan 11 against end Jan 10 under the concrete parse
table. -/
theorem C5_create_start_not_before_end_witness :
    ("t1" ≠ "" ∧ "t1" ∈ dbW0.teachers ∧
     demoEnv.fromisoformat (replaceZ "2025-01-10T00:00:00") = some 10 ∧
     demoEnv.fromisoformat (replaceZ "2025-01-11T00:00:00") = some 11 ∧
     (10 : Int) ≤ 11) ∧
    create_announcement demoEnv dbW0 "2025-01-01T00:00:00" "m"
        "2025-01-10T00:00:00" "t1" (some "2025-01-11T00:00:00") =
      (.error ⟨400, "Start date must be before end date"⟩, dbW0, []) :=
  ⟨⟨by decide, by decide, rfl, rfl, by decide⟩,
    C5_create_start_not_before_end demoEnv dbW0 "2025-01-01T00:00:00" "m" "t1"
      "2025-01-10T00:00:00" "2025-01-11T00:00:00" 10 11 (by decide) (by decide)
      rfl rfl (by decide)⟩

/-- C6: an authorized update whose id is a well-formed ObjectId that matches
no stored announcement fails with 404, whatever the message and date payload
are (the existence check precedes date validation), after exactly the one
read (`find_one`) on the store. -/
theorem C6_update_nonexistent (env : DateEnv) (db : DB)
    (now msg ed tu aid obj : String) (sd : Option String)
    (htu : tu ≠ "") (hteach : tu ∈ db.teachers)
    (hoid : objectIdOfString aid = some obj)
    (hmiss : findOneById db.announcements obj = none) :
    update_announcement env db now aid msg ed tu sd =
      (.error ⟨404, "Announcement not found"⟩, db, [.findOne]) := by
  simp [update_announcement, htu, hteach, hoid, hmiss]

/-- Witness for C6: an absent id together with an unparseable payload still
yields the 404. -/
theorem C6_update_nonexistent_witness :
    ("t1" ≠ "" ∧ "t1" ∈ dbW1.teachers ∧
     objectIdOfString (oidOfNat 5) = some (oidOfNat 5) ∧
     findOneById dbW1.announcements (oidOfNat 5) = none) ∧
    update_announcement demoEnv dbW1 "2025-01-03T00:00:00" (oidOfNat 5)
        "m" "not-a-date" "t1" (some "also-bad") =
      (.error ⟨404, "Announcement not found"⟩, dbW1, [.findOne]) :=
  ⟨⟨by decide, by decide, by decide, by decide⟩,
    C6_update_nonexistent demoEnv dbW1 "2025-01-03T00:00:00" "m" "not-a-date"
      "t1" (oidOfNat 5) (oidOfNat 5) (some "also-bad") (by decide) (by decide)
      (by decide) (by decide)⟩

/-- C7: a successful update of an existing announcement replaces `message`,
`start_date`, `end_date`, sets `updated_by` to the teacher and `updated_at`
to now, leaves `created_by` and `created_at` untouched, and returns the
serialization of the full record re-read from the store after the write. -/
theorem C7_update_success (env : DateEnv) (db : DB) (now aid msg ed tu : String)
    (sd : Option String) (obj : String) (ex : Doc)
    (htu : tu ≠ "") (hteach : tu ∈ db.teachers)
    (hoid : objectIdOfString aid = some obj)
    (hex : findOneById db.announcements obj = some ex)
    (hval : validateDates env ed sd = none) :
    update_announcement env db now aid msg ed tu sd =
      (.ok (serialize_announcement (applySet ex (update_data msg sd ed tu now))),
        { db with announcements :=
            updateFirst obj (update_data msg sd ed tu now) db.announcements },
        [.findOne, .updateOne, .findOne]) ∧
    findOneById (updateFirst obj (update_data msg sd ed tu now) db.announcements)
        obj = some (applySet ex (update_data msg sd ed tu now)) ∧
    getKey (applySet ex (update_data msg sd ed tu now)) "message" =
      some (.str msg) ∧
    getKey (applySet ex (update_data msg sd ed tu now)) "start_date" =
      some (optVal sd) ∧
    getKey (applySet ex (update_data msg sd ed tu now)) "end_date" =
      some (.str ed) ∧
    getKey (applySet ex (update_data msg sd ed tu now)) "updated_by" =
      some (.str tu) ∧
    getKey (applySet ex (update_data msg sd ed tu now)) "updated_at" =
      some (.str now) ∧
    getKey (applySet ex (update_data msg sd ed tu now)) "created_by" =
      getKey ex "created_by" ∧
    getKey (applySet ex (update_data msg sd ed tu now)) "created_at" =
      getKey ex "created_at" := by
  have h6 : findOneById
      (updateFirst obj (update_data msg sd ed tu now) db.announcements) obj =
      some (applySet ex (update_data msg sd ed tu now)) := by
    rw [findOneById_updateFirst _ _ _ (by simp [update_data, keysOf])]
    rw [hex]
    rfl
  refine ⟨?_, h6, ?_, ?_, ?_, ?_, ?_, ?_, ?_⟩
  · simp [update_announcement, htu, hteach, hoid, hex, hval, h6]
  · simp [update_data, applySet, getKey_setKey_self, getKey_setKey_ne]
  · simp [update_data, applySet, getKey_setKey_self, getKey_setKey_ne]
  · simp [update_data, applySet, getKey_setKey_self, getKey_setKey_ne]
  · simp [update_data, applySet, getKey_setKey_self, getKey_setKey_ne]
  · simp [update_data, applySet, getKey_setKey_self, getKey_setKey_ne]
  · simp [update_data, applySet, getKey_setKey_self, getKey_setKey_ne]
  · simp [update_data, applySet, getKey_setKey_self, getKey_setKey_ne]

/-- The update document of the C7 witness. -/
def updW7 : Doc :=
  update_data "m2" (some "2025-01-11T00:00:00") "2025-01-12T00:00:00" "t1"
    "2025-01-07T00:00:00"

/-- Witness for C7 at the concrete two-element store. -/
theorem C7_update_success_witness :
    ("t1" ≠ "" ∧ "t1" ∈ dbW1.teachers ∧
     objectIdOfString (oidOfNat 0) = some (oidOfNat 0) ∧
     findOneById dbW1.announcements (oidOfNat 0) = some dW1 ∧
     validateDates demoEnv "2025-01-12T00:00:00" (some "2025-01-11T00:00:00") =
       none) ∧
    update_announcement demoEnv dbW1 "2025-01-07T00:00:00" (oidOfNat 0) "m2"
        "2025-01-12T00:00:00" "t1" (some "2025-01-11T00:00:00") =
      (.ok (serialize_announcement (applySet dW1 updW7)),
        { dbW1 with announcements :=
            updateFirst (oidOfNat 0) updW7 dbW1.announcements },
        [.findOne, .updateOne, .findOne]) ∧
    getKey (applySet dW1 updW7) "created_by" = getKey dW1 "created_by" :=
  ⟨⟨by decide, by decide, by decide, by decide, rfl⟩,
    (C7_update_success demoEnv dbW1 "2025-01-07T00:00:00" (oidOfNat 0) "m2"
      "2025-01-12T00:00:00" "t1" (some "2025-01-11T00:00:00") (oidOfNat 0) dW1
      (by decide) (by decide) (by decide) (by decide) rfl).1,
    (C7_update_success demoEnv dbW1 "2025-01-07T00:00:00" (oidOfNat 0) "m2"
      "2025-01-12T00:00:00" "t1" (some "2025-01-11T00:00:00") (oidOfNat 0) dW1
      (by decide) (by decide) (by decide) (by decide) rfl).2.2.2.2.2.2.2.1⟩

/-- C8: delete is idempotent in effect; after a successful authorized delete
of an id, a second authorized delete of the same id fails with 404 (store
unchanged), and its trace is the single `delete_one` call, so non-existence
is decided from the deletion outcome rather than a separate read. -/
theorem C8_delete_idempotent (db : DB) (aid tu tu2 : String)
    (hwf : db.wf)
    (hok : (delete_announcement db aid tu).1.isOk = true)
    (htu2 : tu2 ≠ "") (hteach2 : tu2 ∈ db.teachers) :
    delete_announcement (delete_announcement db aid tu).2.1 aid tu2 =
      (.error ⟨404, "Announcement not found"⟩,
        (delete_announcement db aid tu).2.1, [.deleteOne]) := by
  by_cases h1 : tu = ""
  · simp [delete_announcement, h1, Except.isOk, Except.toBool] at hok
  by_cases h2 : tu ∈ db.teachers
  case neg =>
    simp [delete_announcement, h1, h2, Except.isOk, Except.toBool] at hok
  cases h3 : objectIdOfString aid with
  | none =>
    simp [delete_announcement, h1, h2, h3, Except.isOk, Except.toBool] at hok
  | some obj =>
    by_cases h4 : (deleteFirst obj db.announcements).2 = 0
    · simp [delete_announcement, h1, h2, h3, h4, Except.isOk,
        Except.toBool] at hok
    · have hproj : (delete_announcement db aid tu).2.1 =
          { db with announcements := (deleteFirst obj db.announcements).1 } := by
        simp [delete_announcement, h1, h2, h3, h4]
      rw [hproj]
      have hno : ∀ d ∈ (deleteFirst obj db.announcements).1, idEq d obj = false :=
        deleteFirst_no_match obj db.announcements hwf.2
      have hdel2 : deleteFirst obj (deleteFirst obj db.announcements).1 =
          ((deleteFirst obj db.announcements).1, 0) :=
        deleteFirst_of_no_match hno
      simp [delete_announcement, htu2, hteach2, h3, hdel2]

/-- Witness for C8: deleting the first stored announcement twice. -/
theorem C8_delete_idempotent_witness :
    (DB.wf dbW1 ∧
     (delete_announcement dbW1 (oidOfNat 0) "t1").1.isOk = true ∧
     "t1" ≠ "" ∧ "t1" ∈ dbW1.teachers) ∧
    delete_announcement (delete_announcement dbW1 (oidOfNat 0) "t1").2.1
        (oidOfNat 0) "t1" =
      (.error ⟨404, "Announcement not found"⟩,
        (delete_announcement dbW1 (oidOfNat 0) "t1").2.1, [.deleteOne]) :=
  ⟨⟨by decide, by decide, by decide, by decide⟩,
    C8_delete_idempotent dbW1 (oidOfNat 0) "t1" "t1" (by decide) (by decide)
      (by decide) (by decide)⟩

/-- C9 as stated is false at this input: the record returned by a successful
create does not consist of `message`, `start_date`, `end_date`, `created_by`,
`created_at` and `id` only — it also retains the `_id` key added to the dict
in place by `insert_one`. -/
theorem C9_counterexample :
    (create_announcement demoEnv dbW0 "2025-01-01T00:00:00" "m"
        "2025-01-10T00:00:00" "t1" none).1 =
      .ok (setKey (inserted_doc "m" none "2025-01-10T00:00:00" "t1"
        "2025-01-01T00:00:00" (oidOfNat 0)) "id" (.str (oidOfNat 0))) ∧
    keysOf (setKey (inserted_doc "m" none "2025-01-10T00:00:00" "t1"
        "2025-01-01T00:00:00" (oidOfNat 0)) "id" (.str (oidOfNat 0))) =
      ["message", "start_date", "end_date", "created_by", "created_at",
        "_id", "id"] :=
  ⟨rfl, by decide⟩

/-- C9 (amended): a successful create stores a document whose keys are
exactly `message`, `start_date`, `end_date`, `created_by`, `created_at` plus
the store identifier `_id`, and returns that document with `id` appended as
well (so the returned record still carries `_id`); neither the stored nor
the returned record has an `updated_by` or `updated_at` field. -/
theorem C9_create_field_set (env : DateEnv) (db : DB) (now msg ed tu : String)
    (sd : Option String)
    (htu : tu ≠ "") (hteach : tu ∈ db.teachers)
    (hval : validateDates env ed sd = none) :
    create_announcement env db now msg ed tu sd =
      (.ok (setKey (inserted_doc msg sd ed tu now (oidOfNat db.nextOid)) "id"
          (.str (oidOfNat db.nextOid))),
        created_db db msg sd ed tu now,
        [.insertOne]) ∧
    keysOf (inserted_doc msg sd ed tu now (oidOfNat db.nextOid)) =
      ["message", "start_date", "end_date", "created_by", "created_at",
        "_id"] ∧
    keysOf (setKey (inserted_doc msg sd ed tu now (oidOfNat db.nextOid)) "id"
        (.str (oidOfNat db.nextOid))) =
      ["message", "start_date", "end_date", "created_by", "created_at",
        "_id", "id"] ∧
    hasKey (inserted_doc msg sd ed tu now (oidOfNat db.nextOid))
      "updated_by" = false ∧
    hasKey (inserted_doc msg sd ed tu now (oidOfNat db.nextOid))
      "updated_at" = false ∧
    hasKey (setKey (inserted_doc msg sd ed tu now (oidOfNat db.nextOid)) "id"
      (.str (oidOfNat db.nextOid))) "updated_by" = false ∧
    hasKey (setKey (inserted_doc msg sd ed tu now (oidOfNat db.nextOid)) "id"
      (.str (oidOfNat db.nextOid))) "updated_at" = false := by
  refine ⟨?_, ?_, ?_, ?_, ?_, ?_, ?_⟩
  · simp [create_announcement, htu, hteach, hval, inserted_doc, created_db]
  · simp [inserted_doc, announcement_doc, keysOf]
  · simp [inserted_doc, announcement_doc, keysOf, setKey]
  · simp [inserted_doc, announcement_doc, hasKey, getKey]
  · simp [inserted_doc, announcement_doc, hasKey, getKey]
  · simp [inserted_doc, announcement_doc, hasKey, getKey, setKey]
  · simp [inserted_doc, announcement_doc, hasKey, getKey, setKey]

/-- Witness for C9 (amended) at a concrete create call. -/
theorem C9_create_field_set_witness :
    ("t1" ≠ "" ∧ "t1" ∈ dbW0.teachers ∧
     validateDates demoEnv "2025-01-10T00:00:00" (some "2025-01-09T00:00:00Z")
       = none) ∧
    create_announcement demoEnv dbW0 "2025-01-01T00:00:00" "m"
        "2025-01-10T00:00:00" "t1" (some "2025-01-09T00:00:00Z") =
      (.ok (setKey (inserted_doc "m" (some "2025-01-09T00:00:00Z")
          "2025-01-10T00:00:00" "t1" "2025-01-01T00:00:00" (oidOfNat 0)) "id"
          (.str (oidOfNat 0))),
        created_db dbW0 "m" (some "2025-01-09T00:00:00Z")
          "2025-01-10T00:00:00" "t1" "2025-01-01T00:00:00",
        [.insertOne]) ∧
    hasKey (inserted_doc "m" (some "2025-01-09T00:00:00Z")
      "2025-01-10T00:00:00" "t1" "2025-01-01T00:00:00" (oidOfNat 0))
      "updated_by" = false :=
  ⟨⟨by decide, by decide, rfl⟩,
    (C9_create_field_set demoEnv dbW0 "2025-01-01T00:00:00" "m"
      "2025-01-10T00:00:00" "t1" (some "2025-01-09T00:00:00Z") (by decide)
      (by decide) rfl).1,
    (C9_create_field_set demoEnv dbW0 "2025-01-01T00:00:00" "m"
      "2025-01-10T00:00:00" "t1" (some "2025-01-09T00:00:00Z") (by decide)
      (by decide) rfl).2.2.2.1⟩

/-- C10: a create without `start_date` stores the `start_date` key bound
explicitly to null; such a record matches the absent-start disjunct of the
active query, so (in a well-formed store where the fresh id is indeed fresh)
it is listed as active at an instant exactly when `end_date ≥ now`. -/
theorem C10_create_null_start_active (env : DateEnv) (db : DB)
    (now now2 msg ed tu : String)
    (hwf : db.wf) (htu : tu ≠ "") (hteach : tu ∈ db.teachers)
    (hval : validateDates env ed none = none)
    (hfresh : ∀ d ∈ db.announcements,
      getKey d "_id" ≠ some (.oid (oidOfNat db.nextOid))) :
    getKey (inserted_doc msg none ed tu now (oidOfNat db.nextOid))
      "start_date" = some .null ∧
    create_announcement env db now msg ed tu none =
      (.ok (setKey (inserted_doc msg none ed tu now (oidOfNat db.nextOid))
          "id" (.str (oidOfNat db.nextOid))),
        created_db db msg none ed tu now,
        [.insertOne]) ∧
    (serialize_announcement (inserted_doc msg none ed tu now
        (oidOfNat db.nextOid)) ∈
      get_active_announcements (created_db db msg none ed tu now) now2 ↔
      now2 ≤ ed) := by
  refine ⟨by simp [inserted_doc, announcement_doc, getKey, optVal], ?_, ?_⟩
  · simp [create_announcement, htu, hteach, hval, inserted_doc, created_db]
  · have hm : inserted_doc msg none ed tu now (oidOfNat db.nextOid) ∈
        (created_db db msg none ed tu now).announcements := by
      simp [created_db]
    have hstoredwf : docWf (inserted_doc msg none ed tu now
        (oidOfNat db.nextOid)) = true := by
      simp [inserted_doc, announcement_doc, docWf, getKey, optVal, isOidVal,
        isStrVal, isNullOrStrVal]
    have hid : getKey (inserted_doc msg none ed tu now (oidOfNat db.nextOid))
        "_id" = some (.oid (oidOfNat db.nextOid)) := by
      simp [inserted_doc, announcement_doc, getKey]
    have hann : (created_db db msg none ed tu now).announcements =
        db.announcements ++
          [inserted_doc msg none ed tu now (oidOfNat db.nextOid)] := rfl
    have hwf2 : DB.wf (created_db db msg none ed tu now) := by
      constructor
      · intro d hd
        rw [hann] at hd
        rcases List.mem_append.1 hd with hd | hd
        · exact hwf.1 d hd
        · rw [List.mem_singleton.1 hd]
          exact hstoredwf
      · rw [hann, List.map_append, List.nodup_append]
        refine ⟨hwf.2, List.nodup_singleton _, ?_⟩
        intro x hx hx2
        obtain ⟨d, hd, rfl⟩ := List.mem_map.1 hx
        rw [List.map_singleton, List.mem_singleton, hid] at hx2
        exact hfresh d hd hx2
    rw [mem_get_active_iff hwf2 hm]
    have hact : matchesActive now2
        (inserted_doc msg none ed tu now (oidOfNat db.nextOid)) =
        decide (now2 ≤ ed) := by
      simp [matchesActive, inserted_doc, announcement_doc, getKey, optVal]
    rw [hact]
    simp

/-- Witness for C10: creating into the empty store and listing on Jan 5. -/
theorem C10_create_null_start_active_witness :
    (DB.wf dbW0 ∧ "t1" ≠ "" ∧ "t1" ∈ dbW0.teachers ∧
     validateDates demoEnv "2025-01-10T00:00:00" none = none ∧
     (∀ d ∈ dbW0.announcements,
        getKey d "_id" ≠ some (.oid (oidOfNat dbW0.nextOid)))) ∧
    getKey (inserted_doc "m" none "2025-01-10T00:00:00" "t1"
      "2025-01-01T00:00:00" (oidOfNat dbW0.nextOid)) "start_date" =
      some .null ∧
    (serialize_announcement (inserted_doc "m" none "2025-01-10T00:00:00" "t1"
        "2025-01-01T00:00:00" (oidOfNat dbW0.nextOid)) ∈
      get_active_announcements
        (created_db dbW0 "m" none "2025-01-10T00:00:00" "t1"
          "2025-01-01T00:00:00") "2025-01-05T00:00:00" ↔
      "2025-01-05T00:00:00" ≤ "2025-01-10T00:00:00") :=
  ⟨⟨by decide, by decide, by decide, rfl, by decide⟩,
    (C10_create_null_start_active demoEnv dbW0 "2025-01-01T00:00:00"
      "2025-01-05T00:00:00" "m" "2025-01-10T00:00:00" "t1" (by decide)
      (by decide) (by decide) rfl (by decide)).1,
    (C10_create_null_start_active demoEnv dbW0 "2025-01-01T00:00:00"
      "2025-01-05T00:00:00" "m" "2025-01-10T00:00:00" "t1" (by decide)
      (by decide) (by decide) rfl (by decide)).2.2⟩

end Announcements
